import Mathlib

/-
Shallow embedding of the Atlas War Room Discord bot (src/bot.py and
src/db_manager.py).  Pure helpers are translated as Lean functions; the
HTTP transport is passed in as an explicit function from the request
payload to an outcome, and the database is an explicit record of row
lists threaded through the persistence operations.
-/

set_option maxRecDepth 4096

/-- Substring test: Python `needle in hay` on strings, via code points. -/
def strContains (hay needle : String) : Bool :=
  hay.toList.tails.any (fun t => needle.toList.isPrefixOf t)

/-- Prefix test: Python `s.startswith(pre)`, via code points. -/
def strStartsWith (s pre : String) : Bool :=
  pre.toList.isPrefixOf s.toList

/-- Python `s.lower()`, as a per-code-point map (ASCII range, which covers
every model name and capability class used by the bot). -/
def strToLower (s : String) : String :=
  ⟨s.data.map Char.toLower⟩

/-- src/bot.py model_supports_web_search: a model has native web search iff
its lowercased name contains "perplexity", or contains both "google" and
"gemini". -/
def model_supports_web_search (model_name : String) : Bool :=
  let model_lower := strToLower model_name
  strContains model_lower "perplexity" ||
    (strContains model_lower "google" && strContains model_lower "gemini")

/-- One officer entry of the roster configuration (config/roster.json).
The optional display color is stored already parsed from its hex string,
since int(color, 16) is a mechanical conversion. -/
structure Officer where
  title : String
  model : String
  specialty : String
  capability_class : Option String
  system_prompt : String
  color : Option Nat
deriving Repr, DecidableEq

/-- src/bot.py CAPABILITY_COLORS mapping. -/
def CAPABILITY_COLORS (c : String) : Option Nat :=
  if c = "Strategic" then some 0x9B59B6
  else if c = "Operational" then some 0x3498DB
  else if c = "Tactical" then some 0x2ECC71
  else if c = "Support" then some 0xF39C12
  else none

/-- src/bot.py get_officer_color. -/
def get_officer_color (o : Officer) : Nat :=
  match o.color with
  | some c => c
  | none => (CAPABILITY_COLORS (o.capability_class.getD "Operational")).getD 0x95A5A6

/-- Roster configuration: OFFICERS mapping and ACTIVE_ROSTER order. -/
structure Roster where
  officers : String → Officer
  active_roster : List String

/-- Python truthiness of an optional string argument (None and "" are falsy). -/
def falsyStr : Option String → Bool
  | none => true
  | some s => s.isEmpty

/-- src/bot.py filter_officers_by_capability: no filter returns the active
roster; otherwise the active-roster subset whose capability class matches
case-insensitively, in roster order. -/
def filter_officers_by_capability (roster : Roster) (capability_class : Option String) :
    List String :=
  if falsyStr capability_class then roster.active_roster
  else
    let capability_class_lower := strToLower (capability_class.getD "")
    roster.active_roster.filter
      (fun officer_id =>
        strToLower ((roster.officers officer_id).capability_class.getD "") ==
          capability_class_lower)

/-- A rendered Discord embed ("card"): the parts of discord.Embed that
calculate_embed_size inspects. -/
structure EmbedField where
  name : String
  value : String
deriving Repr, DecidableEq

structure Embed where
  title : Option String
  description : Option String
  footer_text : Option String
  author_name : Option String
  fields : List EmbedField
deriving Repr, DecidableEq

/-- Length of an optional text part (absent and empty both contribute 0,
matching the Python truthiness guards in calculate_embed_size). -/
def opt_len (s : Option String) : Nat := (s.getD "").length

/-- src/bot.py calculate_embed_size: total character count of an embed. -/
def calculate_embed_size (e : Embed) : Nat :=
  opt_len e.title + opt_len e.description + opt_len e.footer_text +
    opt_len e.author_name +
    (e.fields.map (fun f => f.name.length + f.value.length)).sum

/-- src/bot.py MAX_EMBED_SIZE: safe margin under the 6000-character
platform limit. -/
def MAX_EMBED_SIZE : Nat := 5500

/-- Aggregate size of one outgoing batch, as accumulated by current_size. -/
def batch_size (b : List Embed) : Nat :=
  (b.map calculate_embed_size).sum

/-- The loop of src/bot.py send_embeds_in_batches: accumulate embeds into
current_batch; when adding the next embed would push current_size over
MAX_EMBED_SIZE and the batch is nonempty, flush it and start a new batch
with that embed; flush the remainder at the end (the view, when present,
is attached to that last message). -/
def batch_loop : List Embed → List Embed → Nat → List (List Embed)
  | [], current_batch, _ =>
      if current_batch.isEmpty then [] else [current_batch]
  | e :: rest, current_batch, current_size =>
      let embed_size := calculate_embed_size e
      if current_size + embed_size > MAX_EMBED_SIZE && !current_batch.isEmpty then
        current_batch :: batch_loop rest [e] embed_size
      else
        batch_loop rest (current_batch ++ [e]) (current_size + embed_size)

/-- src/bot.py send_embeds_in_batches, as the list of sent messages
(each message being the batch of embeds it carries). -/
def send_embeds_in_batches (embeds : List Embed) : List (List Embed) :=
  batch_loop embeds [] 0

/-- One entry of the tool_calls array in a completion response choice. -/
structure FunctionInfo where
  arguments : Option String
deriving Repr, DecidableEq

structure ToolCall where
  function : Option FunctionInfo
deriving Repr, DecidableEq

/-- The message object of a completion response choice.  content is none
when the key is absent; tool_calls is none when the key is absent and
some [] when it is present but empty. -/
structure ApiMessage where
  content : Option String
  tool_calls : Option (List ToolCall)
deriving Repr, DecidableEq

structure Choice where
  message : ApiMessage
deriving Repr, DecidableEq

/-- A parsed 2xx JSON body from the completions endpoint. -/
structure ApiResponse where
  choices : List Choice
deriving Repr, DecidableEq

/-- Outcome of one HTTP call: exn carries the message of any exception
raised by the transport, raise_for_status, or JSON decoding; ok carries
the parsed body. -/
inductive HttpOutcome where
  | exn (msg : String)
  | ok (data : ApiResponse)
deriving Repr, DecidableEq

/-- One chat message of the request payload. -/
structure ChatMessage where
  role : String
  content : String
deriving Repr, DecidableEq

/-- The JSON request body sent to the completions endpoint;
provider_order models the optional provider routing hint added for
Google models in web-search mode. -/
structure Payload where
  model : String
  messages : List ChatMessage
  provider_order : Option (List String)
deriving Repr, DecidableEq

/-- Result record returned by query_officer. -/
structure OfficerResult where
  officer_id : String
  title : String
  model : String
  specialty : String
  capability_class : String
  color : Nat
  response : String
  success : Bool
deriving Repr, DecidableEq

/-- System prompt of a plain officer query: the base prompt, augmented
with the memory section when memory context is nonempty. -/
def officer_system_content (officer : Officer) (memory_context : String) : String :=
  if memory_context = "" then officer.system_prompt
  else officer.system_prompt ++ "\n\n## Your Memory for This Channel:\n" ++ memory_context

/-- The request payload built by src/bot.py query_officer. -/
def query_officer_payload (roster : Roster) (officer_id : String)
    (mission_brief : String) (memory_context : String) : Payload :=
  let officer := roster.officers officer_id
  { model := officer.model
    messages :=
      [{ role := "system", content := officer_system_content officer memory_context },
       { role := "user", content := mission_brief }]
    provider_order := none }

/-- Extraction of choices[0].message.content from the parsed body, with
the Python exception messages: IndexError on an empty choices array,
KeyError on a missing content key.  Both are raised inside the try block
of query_officer, so they surface as a failed result there. -/
def extract_content (data : ApiResponse) : Except String String :=
  match data.choices.head? with
  | none => Except.error "list index out of range"
  | some choice =>
    match choice.message.content with
    | none => Except.error "\x27content\x27"
    | some c => Except.ok c

/-- src/bot.py query_officer: one officer query.  The transport is the
function http from payload to outcome; every exceptional outcome is
converted into a failed result carrying "Error: " plus the exception
message, so the function is total and never raises. -/
def query_officer (roster : Roster) (officer_id : String) (mission_brief : String)
    (memory_context : String) (http : Payload → HttpOutcome) : OfficerResult :=
  let officer := roster.officers officer_id
  let base : OfficerResult :=
    { officer_id := officer_id
      title := officer.title
      model := officer.model
      specialty := officer.specialty
      capability_class := officer.capability_class.getD "Operational"
      color := get_officer_color officer
      response := ""
      success := false }
  match http (query_officer_payload roster officer_id mission_brief memory_context) with
  | HttpOutcome.exn e => { base with response := "Error: " ++ e, success := false }
  | HttpOutcome.ok data =>
    match extract_content data with
    | Except.error e => { base with response := "Error: " ++ e, success := false }
    | Except.ok content => { base with response := content, success := true }

/-- src/bot.py query_all_officers: resolve the officer subset, return []
when it is empty, otherwise one query_officer result per resolved
officer, in roster order (asyncio.gather preserves task order).  memory
gives each officer its loaded memory context ("" when no channel id was
supplied) and http gives each officer its own transport. -/
def query_all_officers (roster : Roster) (mission_brief : String)
    (capability_class : Option String) (memory : String → String)
    (http : String → Payload → HttpOutcome) : List OfficerResult :=
  let officer_ids := filter_officers_by_capability roster capability_class
  if officer_ids.isEmpty then []
  else
    officer_ids.map
      (fun officer_id =>
        query_officer roster officer_id mission_brief (memory officer_id)
          (http officer_id))

/-- One entry of src/bot.py RESEARCH_ROLES. -/
structure RoleConfig where
  role : String
  instruction : String
deriving Repr, DecidableEq

/-- src/bot.py RESEARCH_ROLES: the four fixed perspective roles, keyed by
index 0..3. -/
def RESEARCH_ROLES : Fin 4 → RoleConfig
  | 0 =>
    { role := "State-of-the-Art Researcher"
      instruction := "Focus on current best practices, leading solutions, and latest developments. Cite specific examples and provide concrete evidence." }
  | 1 =>
    { role := "Critical Analyst"
      instruction := "Identify counterexamples, flaws, limitations, and risks. Challenge assumptions and highlight edge cases." }
  | 2 =>
    { role := "Optimistic Visionary"
      instruction := "Explore futuristic possibilities, emerging technologies, and \x27what if\x27 scenarios. Think 3-5 years ahead." }
  | 3 =>
    { role := "Historical Context Provider"
      instruction := "Explain the evolution of this field, past attempts, lessons learned, and provide historical perspective." }

/-- Result record returned by query_officer_with_research_role; the error
field is present only on the exception branch. -/
structure ResearchResult where
  officer_id : String
  title : String
  model : String
  specialty : String
  capability_class : String
  color : Nat
  research_role : String
  response : String
  success : Bool
  error : Option String
deriving Repr, DecidableEq

/-- Placeholder synthesized when a model answers with a tool call instead
of text (src/bot.py lines 600-605). -/
def tool_call_placeholder (args : String) : String :=
  "⚠️ Model attempted to call search tool but function execution is not yet implemented. Query: " ++ args

/-- Placeholder synthesized when the final content is empty
(src/bot.py lines 607-609). -/
def empty_response_placeholder : String :=
  "⚠️ Model returned empty response. This may indicate the model doesn\x27t support the requested operation or encountered an internal error."

/-- Disclaimer prepended when web search was requested but the model is
not search-capable (src/bot.py lines 611-613). -/
def web_search_disclaimer (model : String) : String :=
  "📚 **Note: Web search not available for this model (" ++ model ++ "). Response based on pretraining knowledge only.**\n\n"

/-- The tool-call query text: tool_calls[0].get("function", dict()).get("arguments", "N/A"). -/
def tool_call_args (tc : ToolCall) : String :=
  match tc.function with
  | some f => f.arguments.getD "N/A"
  | none => "N/A"

/-- The request payload built by src/bot.py query_officer_with_research_role:
system prompt augmented with the research role instruction, optional web
search instructions, optional memory section; research-specific user
prompt; Google provider routing hint when web search is active on a
Google or Gemini model. -/
def research_payload (roster : Roster) (officer_id : String) (research_topic : String)
    (role_index : Fin 4) (memory_context : String) (use_web_search : Bool) : Payload :=
  let officer := roster.officers officer_id
  let role_config := RESEARCH_ROLES role_index
  let has_web_search := model_supports_web_search officer.model
  let web_search_active := use_web_search && has_web_search
  let research_instruction :=
    "\n\n## RESEARCH ROLE: " ++ role_config.role ++ "\n" ++ role_config.instruction ++
      (if web_search_active then
        "\n\n**IMPORTANT: You have access to real-time web search. Search for current information, cite specific sources with URLs, and include publication dates when available. Always verify facts through multiple sources.**"
      else "")
  let system_content0 := officer.system_prompt ++ research_instruction
  let system_content :=
    if memory_context = "" then system_content0
    else system_content0 ++ "\n\n## Your Memory for This Channel:\n" ++ memory_context
  let user_prompt :=
    "Research Topic: " ++ research_topic ++
      "\n\nProvide a comprehensive analysis from your assigned perspective as the " ++
      role_config.role ++ "." ++
      (if web_search_active then
        "\n\n**Use web search to find current information and cite all sources with URLs.**"
      else "")
  let model_name := strToLower officer.model
  { model := officer.model
    messages :=
      [{ role := "system", content := system_content },
       { role := "user", content := user_prompt }]
    provider_order :=
      if web_search_active && !(strContains model_name "perplexity") &&
          (strContains model_name "google" || strContains model_name "gemini") then
        some ["Google"]
      else none }

/-- Content normalization of the non-exceptional branch of
query_officer_with_research_role: message.get("content", "") with the
tool-call placeholder, the empty-content placeholder, and the web-search
disclaimer applied in source order. -/
def research_content (message : ApiMessage) (model : String)
    (web_search_requested has_web_search : Bool) : String :=
  let content0 := message.content.getD ""
  let content1 :=
    if content0 = "" then
      match message.tool_calls with
      | some (tc :: _) => tool_call_placeholder (tool_call_args tc)
      | _ => content0
    else content0
  let content2 := if content1 = "" then empty_response_placeholder else content1
  if web_search_requested && !has_web_search then
    web_search_disclaimer model ++ content2
  else content2

/-- src/bot.py query_officer_with_research_role: one research-role query.
Exceptions (network, status, JSON, an empty choices array) become a
failed result with the exception message; otherwise the normalized
content is returned with the success flag computed from the final text. -/
def query_officer_with_research_role (roster : Roster) (officer_id : String)
    (research_topic : String) (role_index : Fin 4) (memory_context : String)
    (use_web_search : Bool) (http : Payload → HttpOutcome) : ResearchResult :=
  let officer := roster.officers officer_id
  let role_config := RESEARCH_ROLES role_index
  let has_web_search := model_supports_web_search officer.model
  let web_search_requested := use_web_search
  let base : ResearchResult :=
    { officer_id := officer_id
      title := officer.title
      model := officer.model
      specialty := officer.specialty
      capability_class := officer.capability_class.getD "Operational"
      color := get_officer_color officer
      research_role := role_config.role
      response := ""
      success := false
      error := none }
  match http (research_payload roster officer_id research_topic role_index
      memory_context use_web_search) with
  | HttpOutcome.exn e =>
    { base with response := "Error: " ++ e, success := false, error := some e }
  | HttpOutcome.ok data =>
    match data.choices.head? with
    | none =>
      { base with
          response := "Error: " ++ "list index out of range"
          success := false
          error := some "list index out of range" }
    | some choice =>
      let content :=
        research_content choice.message officer.model web_search_requested has_web_search
      { base with
          response := content
          success := !(content == "") && !(strStartsWith content "⚠️") }

/-- src/bot.py query_research_council: requires the filtered set to hold
exactly four officers and dispatches officer i with role index i;
otherwise raises ValueError, modelled as Except.error with the same
message. -/
def query_research_council (roster : Roster) (research_topic : String)
    (capability_class : String) (memory : String → String) (use_web_search : Bool)
    (http : String → Payload → HttpOutcome) : Except String (List ResearchResult) :=
  let officer_ids := filter_officers_by_capability roster (some capability_class)
  if h : officer_ids.length = 4 then
    Except.ok
      (List.ofFn (fun i : Fin 4 =>
        let officer_id := officer_ids.get ⟨i.val, by have hi := i.isLt; omega⟩
        query_officer_with_research_role roster officer_id research_topic i
          (memory officer_id) use_web_search (http officer_id)))
  else
    Except.error
      ("Expected 4 officers in " ++ capability_class ++ ", found " ++
        toString officer_ids.length)

/-- One row of the manual_notes table (src/models/memory.py ManualNote);
created_at is the creation timestamp as a number. -/
structure ManualNote where
  id : Nat
  officer_id : String
  channel_id : Nat
  note_content : String
  created_by_user_id : Nat
  created_at : Nat
  is_pinned : Bool
deriving Repr, DecidableEq

/-- One row of the mission_history table (src/models/memory.py
MissionHistory). -/
structure MissionHistoryRow where
  id : Nat
  channel_id : Nat
  mission_brief : String
  started_at : Nat
  capability_class_filter : Option String
  user_id : Nat
deriving Repr, DecidableEq

/-- One row of the mission_officer_response table (src/models/memory.py
MissionOfficerResponse). -/
structure MissionOfficerResponseRow where
  id : Nat
  mission_id : Nat
  officer_id : String
  response_content : String
  tokens_used : Nat
  success : Bool
  error_message : Option String
deriving Repr, DecidableEq

/-- The relational store as seen by the memory operations of
src/db_manager.py. -/
structure Database where
  manual_notes : List ManualNote
  mission_history : List MissionHistoryRow
  mission_responses : List MissionOfficerResponseRow
deriving Repr, DecidableEq

/-- Insertion of one row into an already ordered list, keeping earlier
equal-key rows first. -/
def insertSorted {α : Type} (le : α → α → Bool) (a : α) : List α → List α
  | [] => [a]
  | b :: bs => if le a b then a :: b :: bs else b :: insertSorted le a bs

/-- Deterministic stable sort modelling the SQL ORDER BY of the memory
queries. -/
def sortBy {α : Type} (le : α → α → Bool) : List α → List α
  | [] => []
  | a :: as => insertSorted le a (sortBy le as)

/-- ORDER BY is_pinned DESC, created_at DESC of the notes query: a comes
no later than b when a is pinned and b is not, or both flags agree and a
is at least as recent. -/
def note_before (a b : ManualNote) : Bool :=
  (a.is_pinned && !b.is_pinned) ||
    (a.is_pinned == b.is_pinned && b.created_at ≤ a.created_at)

/-- ORDER BY mission_history.started_at DESC of the mission query. -/
def mission_before (a b : MissionOfficerResponseRow × MissionHistoryRow) : Bool :=
  b.2.started_at ≤ a.2.started_at

/-- The joined rows of the mission query of load_officer_memory:
mission_officer_response JOIN mission_history ON mission_id = id,
filtered to the given officer, channel, and success = true. -/
def mission_query_rows (db : Database) (channel_id : Nat) (officer_id : String) :
    List (MissionOfficerResponseRow × MissionHistoryRow) :=
  ((db.mission_responses.flatMap
      (fun r => (db.mission_history.filter (fun h => h.id == r.mission_id)).map
        (fun h => (r, h)))).filter
    (fun p => p.1.officer_id == officer_id && p.2.channel_id == channel_id &&
      p.1.success))

/-- The notes selected by load_officer_memory for one (officer, channel)
pair: filter by the pair, sort pinned-first then most-recent-first,
LIMIT 10. -/
def notes_query (db : Database) (channel_id : Nat) (officer_id : String) :
    List ManualNote :=
  (sortBy note_before
    (db.manual_notes.filter
      (fun n => n.officer_id == officer_id && n.channel_id == channel_id))).take 10

/-- src/db_manager.py load_officer_memory: format up to 10 manual notes
and up to 5 recent successful mission responses for the pair into two
labeled sections, then truncate by the length-quarter token estimate. -/
def load_officer_memory (db : Database) (channel_id : Nat) (officer_id : String)
    (max_tokens : Nat := 2000) : String :=
  let notes := notes_query db channel_id officer_id
  let mission_data :=
    (sortBy mission_before (mission_query_rows db channel_id officer_id)).take 5
  let notes_part :=
    if notes.isEmpty then []
    else
      ["### Manual Notes:\n" ++
        String.intercalate "\n" (notes.map (fun n => "- " ++ n.note_content))]
  let missions_part :=
    if mission_data.isEmpty then []
    else
      ["### Recent Missions:\n" ++
        String.intercalate "\n" (mission_data.map
          (fun p =>
            "- Brief: " ++ p.2.mission_brief.take 100 ++ "... | Response: " ++
              p.1.response_content.take 200 ++ "..."))]
  let full_context := String.intercalate "\n\n" (notes_part ++ missions_part)
  let estimated_tokens := full_context.length / 4
  if estimated_tokens > max_tokens then full_context.take (max_tokens * 4)
  else full_context

/-- src/db_manager.py add_manual_note: insert one manual-note row.  The
id and created_at values are generated by the database and passed here
explicitly; is_pinned takes its column default false. -/
def add_manual_note (db : Database) (channel_id : Nat) (officer_id : String)
    (note_content : String) (created_by_user_id : Nat) (id : Nat)
    (created_at : Nat) : Database :=
  { db with
      manual_notes :=
        db.manual_notes ++
          [{ id := id
             officer_id := officer_id
             channel_id := channel_id
             note_content := note_content
             created_by_user_id := created_by_user_id
             created_at := created_at
             is_pinned := false }] }

/-- src/db_manager.py clear_officer_memory: select the manual notes of
the (officer, channel) pair and delete each selected row; mission
history is untouched. -/
def clear_officer_memory (db : Database) (channel_id : Nat) (officer_id : String) :
    Database :=
  let notes_to_delete :=
    db.manual_notes.filter
      (fun n => n.officer_id == officer_id && n.channel_id == channel_id)
  { db with
      manual_notes :=
        notes_to_delete.foldl (fun acc n => acc.erase n) db.manual_notes }

/-
Theorems.
-/

/-- C9: model_supports_web_search returns true iff the lowercased model
name contains "perplexity", or contains both "google" and "gemini"; in
particular it is true for "perplexity/sonar", false for "google/palm-2",
and false for "anthropic/claude-3-haiku". -/
theorem model_supports_web_search_spec :
    (∀ m, model_supports_web_search m = true ↔
      (strContains (strToLower m) "perplexity" = true ∨
        (strContains (strToLower m) "google" = true ∧
          strContains (strToLower m) "gemini" = true))) ∧
    model_supports_web_search "perplexity/sonar" = true ∧
    model_supports_web_search "google/palm-2" = false ∧
    model_supports_web_search "anthropic/claude-3-haiku" = false := by
  refine ⟨fun m => ?_, by decide, by decide, by decide⟩
  simp [model_supports_web_search]

/-- Flattening the output of the batching loop restores the pending batch
followed by the remaining input. -/
theorem batch_loop_flatten (rest : List Embed) :
    ∀ current_batch current_size,
      (batch_loop rest current_batch current_size).flatten = current_batch ++ rest := by
  induction rest with
  | nil =>
    intro cur sz
    by_cases h : cur.isEmpty
    · simp [batch_loop, h, List.isEmpty_iff.mp h]
    · simp [batch_loop, h]
  | cons e rest ih =>
    intro cur sz
    by_cases h : (sz + calculate_embed_size e > MAX_EMBED_SIZE && !cur.isEmpty) = true
    · simp [batch_loop, h, ih]
    · simp [batch_loop, h, ih]

/-- C3: send_embeds_in_batches partitions its input without loss,
reordering, or duplication — concatenating the output batches in order
reproduces the input sequence exactly — and empty input sends no
message. -/
theorem send_embeds_in_batches_concat (embeds : List Embed) :
    (send_embeds_in_batches embeds).flatten = embeds ∧
    (embeds = [] → send_embeds_in_batches embeds = []) := by
  refine ⟨by simpa using batch_loop_flatten embeds [] 0, fun h => ?_⟩
  subst h
  rfl

/-- Witness for C3 at the empty input. -/
theorem send_embeds_in_batches_concat_witness :
    send_embeds_in_batches [] = [] :=
  (send_embeds_in_batches_concat []).2 rfl

/-- A pending batch that satisfies the loop invariant (within the ceiling,
or a singleton) satisfies the output bound when flushed. -/
theorem batch_inv_out (cur : List Embed)
    (hinv : batch_size cur ≤ MAX_EMBED_SIZE ∨ ∃ e, cur = [e]) :
    batch_size cur ≤ MAX_EMBED_SIZE ∨
      ∃ e, cur = [e] ∧ MAX_EMBED_SIZE < calculate_embed_size e := by
  rcases hinv with h | ⟨e, he⟩
  · exact Or.inl h
  · rcases le_or_lt (batch_size cur) MAX_EMBED_SIZE with hle | hlt
    · exact Or.inl hle
    · subst he
      exact Or.inr ⟨e, rfl, by simpa [batch_size] using hlt⟩

/-- Every batch emitted by the loop is within the ceiling or a lone
oversized embed, provided the pending batch satisfies the invariant. -/
theorem batch_loop_size_bound (rest : List Embed) :
    ∀ current_batch current_size,
      current_size = batch_size current_batch →
      (batch_size current_batch ≤ MAX_EMBED_SIZE ∨ ∃ e, current_batch = [e]) →
      ∀ b ∈ batch_loop rest current_batch current_size,
        batch_size b ≤ MAX_EMBED_SIZE ∨
          ∃ e, b = [e] ∧ MAX_EMBED_SIZE < calculate_embed_size e := by
  induction rest with
  | nil =>
    intro cur sz _ hinv b hb
    by_cases h : cur.isEmpty
    · simp [batch_loop, h] at hb
    · simp [batch_loop, h] at hb
      subst hb
      exact batch_inv_out b hinv
  | cons e rest ih =>
    intro cur sz hsz hinv b hb
    by_cases h : (sz + calculate_embed_size e > MAX_EMBED_SIZE && !cur.isEmpty) = true
    · simp only [batch_loop, h, if_pos] at hb
      rcases List.mem_cons.mp hb with hb | hb
      · subst hb
        exact batch_inv_out b hinv
      · exact ih [e] (calculate_embed_size e) (by simp [batch_size])
          (Or.inr ⟨e, rfl⟩) b hb
    · simp only [batch_loop, h, if_neg, Bool.not_eq_true] at hb
      have h2 : ¬(MAX_EMBED_SIZE < sz + calculate_embed_size e) ∨ cur = [] := by
        rcases Bool.and_eq_false_iff.mp (Bool.not_eq_true _ ▸ h) with h3 | h3
        · exact Or.inl (by simpa using h3)
        · exact Or.inr (by simpa [List.isEmpty_iff] using h3)
      have hsz2 : batch_size (cur ++ [e]) = sz + calculate_embed_size e := by
        simp [batch_size, hsz]
      refine ih (cur ++ [e]) (sz + calculate_embed_size e) hsz2.symm ?_ b hb
      rcases h2 with h2 | h2
      · exact Or.inl (by rw [hsz2]; exact Nat.le_of_not_lt h2)
      · subst h2
        exact Or.inr ⟨e, rfl⟩

/-- C4: every output batch of send_embeds_in_batches has aggregate size
at most MAX_EMBED_SIZE, except a batch that is a single embed whose own
size exceeds the ceiling. -/
theorem send_embeds_in_batches_size (embeds : List Embed) (b : List Embed)
    (hb : b ∈ send_embeds_in_batches embeds) :
    batch_size b ≤ MAX_EMBED_SIZE ∨
      ∃ e, b = [e] ∧ MAX_EMBED_SIZE < calculate_embed_size e :=
  batch_loop_size_bound embeds [] 0 (by simp [batch_size])
    (Or.inl (by simp [batch_size])) b hb

/-- A one-field embed used to instantiate the batching theorems. -/
def witness_embed : Embed :=
  { title := some "t", description := none, footer_text := none,
    author_name := none, fields := [] }

/-- Witness for C4 at a concrete single-embed input. -/
theorem send_embeds_in_batches_size_witness :
    batch_size [witness_embed] ≤ MAX_EMBED_SIZE ∨
      ∃ e, [witness_embed] = [e] ∧ MAX_EMBED_SIZE < calculate_embed_size e :=
  send_embeds_in_batches_size [witness_embed] [witness_embed] (by decide)

/-- C1: for every resolved officer subset, query_all_officers returns
exactly one entry per resolved officer in roster order — entry i is the
query_officer result of officer i, with its success or failure tag — and
a filter with zero matches yields the empty collection, not an error. -/
theorem query_all_officers_spec (roster : Roster) (mission_brief : String)
    (capability_class : Option String) (memory : String → String)
    (http : String → Payload → HttpOutcome) :
    (query_all_officers roster mission_brief capability_class memory http).length =
      (filter_officers_by_capability roster capability_class).length ∧
    (∀ i : Nat,
      (query_all_officers roster mission_brief capability_class memory http)[i]? =
        ((filter_officers_by_capability roster capability_class)[i]?).map
          (fun officer_id =>
            query_officer roster officer_id mission_brief (memory officer_id)
              (http officer_id))) ∧
    (filter_officers_by_capability roster capability_class = [] →
      query_all_officers roster mission_brief capability_class memory http = []) := by
  by_cases h : (filter_officers_by_capability roster capability_class).isEmpty
  · have he := List.isEmpty_iff.mp h
    refine ⟨?_, ?_, fun _ => ?_⟩ <;> simp [query_all_officers, h, he]
  · refine ⟨?_, ?_, fun he => absurd (List.isEmpty_iff.mpr he) (by simpa using h)⟩
    · simp [query_all_officers, h]
    · intro i
      simp [query_all_officers, h]

/-- A fixed officer record used to build concrete rosters for witnesses. -/
def witness_officer : Officer :=
  { title := "Chief of Staff"
    model := "anthropic/claude-3-haiku"
    specialty := "Operations"
    capability_class := some "Tactical"
    system_prompt := "You are an officer."
    color := none }

/-- A roster with an empty active list. -/
def witness_roster : Roster :=
  { officers := fun _ => witness_officer, active_roster := [] }

/-- A roster whose active list holds exactly four Tactical officers. -/
def witness_roster4 : Roster :=
  { officers := fun _ => witness_officer
    active_roster := ["O9", "O10", "O11", "O12"] }

/-- Witness for C1 at a roster whose filter matches zero officers. -/
theorem query_all_officers_spec_witness :
    query_all_officers witness_roster "brief" (some "strategic") (fun _ => "")
      (fun _ _ => HttpOutcome.exn "down") = [] :=
  (query_all_officers_spec witness_roster "brief" (some "strategic") (fun _ => "")
    (fun _ _ => HttpOutcome.exn "down")).2.2 (by decide)

/-- C2: query_officer never raises — every transport exception and every
parsing failure of the response body is converted into a result with
success false whose response text is "Error: " followed by the
exception's message. -/
theorem query_officer_never_raises (roster : Roster) (officer_id : String)
    (mission_brief : String) (memory_context : String)
    (http : Payload → HttpOutcome) :
    (∀ e,
      http (query_officer_payload roster officer_id mission_brief memory_context) =
        HttpOutcome.exn e →
      (query_officer roster officer_id mission_brief memory_context http).success =
          false ∧
        (query_officer roster officer_id mission_brief memory_context http).response =
          "Error: " ++ e) ∧
    (∀ data e,
      http (query_officer_payload roster officer_id mission_brief memory_context) =
        HttpOutcome.ok data →
      extract_content data = Except.error e →
      (query_officer roster officer_id mission_brief memory_context http).success =
          false ∧
        (query_officer roster officer_id mission_brief memory_context http).response =
          "Error: " ++ e) := by
  constructor
  · intro e he
    constructor <;> simp [query_officer, he]
  · intro data e hd he
    constructor <;> simp [query_officer, hd, he]

/-- Witness for C2 at a transport that raises. -/
theorem query_officer_never_raises_witness :
    (query_officer witness_roster "O1" "brief" ""
        (fun _ => HttpOutcome.exn "timeout")).success = false ∧
    (query_officer witness_roster "O1" "brief" ""
        (fun _ => HttpOutcome.exn "timeout")).response = "Error: " ++ "timeout" :=
  (query_officer_never_raises witness_roster "O1" "brief" ""
    (fun _ => HttpOutcome.exn "timeout")).1 "timeout" rfl

/-- Adding a manual note under one (officer, channel) pair leaves the
notes query of any other pair unchanged. -/
theorem notes_query_add_ne (db : Database) (channelA channelB : Nat)
    (officerA officerB : String) (note : String) (user id ts : Nat)
    (h : officerB ≠ officerA ∨ channelB ≠ channelA) :
    notes_query (add_manual_note db channelA officerA note user id ts)
        channelB officerB =
      notes_query db channelB officerB := by
  have hfilter :
      (add_manual_note db channelA officerA note user id ts).manual_notes.filter
        (fun n => n.officer_id == officerB && n.channel_id == channelB) =
      db.manual_notes.filter
        (fun n => n.officer_id == officerB && n.channel_id == channelB) := by
    simp only [add_manual_note, List.filter_append]
    rcases h with h | h
    · simp [Ne.symm h]
    · simp [Ne.symm h]
  simp only [notes_query, hfilter]

/-- Adding a manual note touches no mission row, so the mission query of
every pair is unchanged. -/
theorem mission_query_rows_add (db : Database) (channelA : Nat) (officerA : String)
    (note : String) (user id ts : Nat) (channel : Nat) (officer : String) :
    mission_query_rows (add_manual_note db channelA officerA note user id ts)
        channel officer =
      mission_query_rows db channel officer := rfl

/-- Membership is preserved by sorted insertion. -/
theorem mem_insertSorted {α : Type} (le : α → α → Bool) (a b : α) (l : List α) :
    b ∈ insertSorted le a l ↔ b ∈ a :: l := by
  induction l with
  | nil => simp [insertSorted]
  | cons c cs ih =>
    simp only [insertSorted]
    split
    · simp
    · simp only [List.mem_cons] at ih ⊢
      rw [ih]
      tauto

/-- Membership is preserved by the ORDER BY model. -/
theorem mem_sortBy {α : Type} (le : α → α → Bool) (b : α) (l : List α) :
    b ∈ sortBy le l ↔ b ∈ l := by
  induction l with
  | nil => simp [sortBy]
  | cons a as ih => simp [sortBy, mem_insertSorted, ih]

/-- C7: memory loading is isolated per (officer, channel) pair — adding a
manual note under (officerA, channelA) never changes what is loaded for
(officerA, channelB) with a different channel, nor for
(officerB, channelA) with a different officer; and every note and every
mission response the load query selects is stored under exactly the
queried pair (mission responses additionally only from successful
results). -/
theorem load_officer_memory_isolated (db : Database) (channelA channelB : Nat)
    (officerA officerB : String) (note : String) (user id ts : Nat)
    (max_tokens : Nat) :
    (channelB ≠ channelA →
      load_officer_memory (add_manual_note db channelA officerA note user id ts)
          channelB officerA max_tokens =
        load_officer_memory db channelB officerA max_tokens) ∧
    (officerB ≠ officerA →
      load_officer_memory (add_manual_note db channelA officerA note user id ts)
          channelA officerB max_tokens =
        load_officer_memory db channelA officerB max_tokens) ∧
    (∀ n ∈ notes_query db channelA officerA,
      n.officer_id = officerA ∧ n.channel_id = channelA) ∧
    (∀ p ∈ (sortBy mission_before (mission_query_rows db channelA officerA)).take 5,
      p.1.officer_id = officerA ∧ p.2.channel_id = channelA ∧
        p.1.success = true) := by
  refine ⟨?_, ?_, ?_, ?_⟩
  · intro hne
    unfold load_officer_memory
    rw [notes_query_add_ne db channelA channelB officerA officerA note user id ts
      (Or.inr hne),
      mission_query_rows_add db channelA officerA note user id ts channelB officerA]
  · intro hne
    unfold load_officer_memory
    rw [notes_query_add_ne db channelA channelA officerA officerB note user id ts
      (Or.inl hne),
      mission_query_rows_add db channelA officerA note user id ts channelA officerB]
  · intro n hn
    unfold notes_query at hn
    have h1 := List.take_subset 10 _ hn
    rw [mem_sortBy] at h1
    have h2 := (List.mem_filter.mp h1).2
    simp only [Bool.and_eq_true, beq_iff_eq] at h2
    exact h2
  · intro p hp
    have h1 := List.take_subset 5 _ hp
    rw [mem_sortBy] at h1
    unfold mission_query_rows at h1
    have h2 := (List.mem_filter.mp h1).2
    simp only [Bool.and_eq_true, beq_iff_eq] at h2
    exact ⟨h2.1.1, h2.1.2, h2.2⟩

/-- An empty store used to instantiate the persistence theorems. -/
def witness_db : Database :=
  { manual_notes := []
    mission_history :=
      [{ id := 1, channel_id := 1, mission_brief := "scout", started_at := 5,
         capability_class_filter := none, user_id := 7 }]
    mission_responses :=
      [{ id := 1, mission_id := 1, officer_id := "O1",
         response_content := "done", tokens_used := 1, success := true,
         error_message := none }] }

/-- A manual-note row of the (O1, channel 1) pair. -/
def witness_note : ManualNote :=
  { id := 1, officer_id := "O1", channel_id := 1, note_content := "a",
    created_by_user_id := 7, created_at := 3, is_pinned := false }

/-- The joined row of witness_db's single successful mission response. -/
def witness_pair : MissionOfficerResponseRow × MissionHistoryRow :=
  ({ id := 1, mission_id := 1, officer_id := "O1", response_content := "done",
     tokens_used := 1, success := true, error_message := none },
   { id := 1, channel_id := 1, mission_brief := "scout", started_at := 5,
     capability_class_filter := none, user_id := 7 })

/-- A store with notes under two distinct pairs and one mission. -/
def witness_db2 : Database :=
  { manual_notes :=
      [witness_note,
       { id := 2, officer_id := "O2", channel_id := 1, note_content := "b",
         created_by_user_id := 7, created_at := 4, is_pinned := true }]
    mission_history := [witness_pair.2]
    mission_responses := [witness_pair.1] }

/-- Witness for C7 at concrete distinct channels and officers, with a
selected note and a selected mission row. -/
theorem load_officer_memory_isolated_witness :
    (load_officer_memory (add_manual_note witness_db2 1 "O1" "note" 7 3 9) 2 "O1"
        2000 =
      load_officer_memory witness_db2 2 "O1" 2000) ∧
    (load_officer_memory (add_manual_note witness_db2 1 "O1" "note" 7 3 9) 1 "O2"
        2000 =
      load_officer_memory witness_db2 1 "O2" 2000) ∧
    (witness_note.officer_id = "O1" ∧ witness_note.channel_id = 1) ∧
    (witness_pair.1.officer_id = "O1" ∧ witness_pair.2.channel_id = 1 ∧
      witness_pair.1.success = true) :=
  ⟨(load_officer_memory_isolated witness_db2 1 2 "O1" "O2" "note" 7 3 9 2000).1
      (by decide),
   (load_officer_memory_isolated witness_db2 1 2 "O1" "O2" "note" 7 3 9 2000).2.1
      (by decide),
   (load_officer_memory_isolated witness_db2 1 2 "O1" "O2" "note" 7 3 9 2000).2.2.1
      witness_note (by decide),
   (load_officer_memory_isolated witness_db2 1 2 "O1" "O2" "note" 7 3 9 2000).2.2.2
      witness_pair (by decide)⟩

/-- Folding row deletion over the selected sublist of a duplicate-free
list removes exactly the selected rows, in place. -/
theorem foldl_erase_filter {α : Type} [DecidableEq α] (l : List α) (p : α → Bool)
    (h : l.Nodup) :
    List.foldl (fun acc n => acc.erase n) l (l.filter p) =
      l.filter (fun n => !(p n)) := by
  have h1 : List.foldl (fun acc n => acc.erase n) l (l.filter p) =
      l.diff (l.filter p) := by
    rw [List.diff_eq_foldl]
  rw [h1, List.Nodup.diff_eq_filter h]
  refine List.filter_congr (fun x hx => ?_)
  by_cases hp : p x
  · simp [List.mem_filter, hx, hp]
  · simp [List.mem_filter, hp]

/-- C8: for a store whose note rows are pairwise distinct (as rows with
their primary key), clear_officer_memory deletes exactly the manual
notes of the given (officer, channel) pair and leaves every mission row
and every mission response row unchanged. -/
theorem clear_officer_memory_frame (db : Database) (channel_id : Nat)
    (officer_id : String) (h : db.manual_notes.Nodup) :
    (clear_officer_memory db channel_id officer_id).mission_history =
      db.mission_history ∧
    (clear_officer_memory db channel_id officer_id).mission_responses =
      db.mission_responses ∧
    (clear_officer_memory db channel_id officer_id).manual_notes =
      db.manual_notes.filter
        (fun n => !(n.officer_id == officer_id && n.channel_id == channel_id)) := by
  refine ⟨rfl, rfl, ?_⟩
  simpa [clear_officer_memory] using
    foldl_erase_filter db.manual_notes
      (fun n => n.officer_id == officer_id && n.channel_id == channel_id) h

/-- Witness for C8 at a concrete two-note store. -/
theorem clear_officer_memory_frame_witness :
    (clear_officer_memory witness_db2 1 "O1").mission_history =
      witness_db2.mission_history ∧
    (clear_officer_memory witness_db2 1 "O1").mission_responses =
      witness_db2.mission_responses ∧
    (clear_officer_memory witness_db2 1 "O1").manual_notes =
      witness_db2.manual_notes.filter
        (fun n => !(n.officer_id == "O1" && n.channel_id == 1)) :=
  clear_officer_memory_frame witness_db2 1 "O1" (by decide)

/-- The research role recorded in a result is always the role selected by
the dispatched role index, on every outcome branch. -/
theorem research_role_of_result (roster : Roster) (officer_id topic : String)
    (i : Fin 4) (mem : String) (ws : Bool) (http : Payload → HttpOutcome) :
    (query_officer_with_research_role roster officer_id topic i mem ws
        http).research_role = (RESEARCH_ROLES i).role := by
  unfold query_officer_with_research_role
  split
  · rfl
  · split
    · rfl
    · rfl

/-- C6: query_research_council raises its ValueError exactly when the
number of active officers matching the capability class differs from 4;
with exactly 4 it dispatches officer i of the filtered subset with
perspective role index i, so each result carries the fixed role of its
index. -/
theorem query_research_council_spec (roster : Roster) (research_topic : String)
    (capability_class : String) (memory : String → String) (use_web_search : Bool)
    (http : String → Payload → HttpOutcome) :
    ((∃ e, query_research_council roster research_topic capability_class memory
        use_web_search http = Except.error e) ↔
      (filter_officers_by_capability roster (some capability_class)).length ≠ 4) ∧
    (∀ h : (filter_officers_by_capability roster (some capability_class)).length = 4,
      query_research_council roster research_topic capability_class memory
          use_web_search http =
        Except.ok (List.ofFn (fun i : Fin 4 =>
          query_officer_with_research_role roster
            ((filter_officers_by_capability roster (some capability_class)).get
              ⟨i.val, by have hi := i.isLt; omega⟩)
            research_topic i
            (memory ((filter_officers_by_capability roster (some capability_class)).get
              ⟨i.val, by have hi := i.isLt; omega⟩))
            use_web_search
            (http ((filter_officers_by_capability roster (some capability_class)).get
              ⟨i.val, by have hi := i.isLt; omega⟩))))) ∧
    (∀ h : (filter_officers_by_capability roster (some capability_class)).length = 4,
      ∀ results, query_research_council roster research_topic capability_class memory
          use_web_search http = Except.ok results →
        results.map (fun r => r.research_role) =
          (List.finRange 4).map (fun i => (RESEARCH_ROLES i).role)) := by
  unfold query_research_council
  by_cases h4 : (filter_officers_by_capability roster (some capability_class)).length = 4
  · refine ⟨?_, fun _ => ?_, fun _ results hr => ?_⟩
    · simp [h4]
    · simp only [h4, dif_pos]
    · simp only [h4, dif_pos, Except.ok.injEq] at hr
      subst hr
      rw [List.map_ofFn, ← List.ofFn_eq_map]
      congr 1
      funext i
      exact research_role_of_result roster
        ((filter_officers_by_capability roster (some capability_class)).get
          ⟨i.val, by have hi := i.isLt; omega⟩)
        research_topic i (memory _) use_web_search (http _)
  · refine ⟨?_, fun h => absurd h h4, fun h => absurd h h4⟩
    simp [h4]

/-- Witness for C6: zero matching officers raise the structural error;
four matching officers are dispatched with the four fixed roles. -/
theorem query_research_council_spec_witness :
    (∃ e, query_research_council witness_roster "topic" "tactical" (fun _ => "")
        false (fun _ _ => HttpOutcome.exn "down") = Except.error e) ∧
    (∃ results, query_research_council witness_roster4 "topic" "tactical"
        (fun _ => "") false (fun _ _ => HttpOutcome.exn "down") =
          Except.ok results ∧
      results.map (fun r => r.research_role) =
        (List.finRange 4).map (fun i => (RESEARCH_ROLES i).role)) :=
  ⟨(query_research_council_spec witness_roster "topic" "tactical" (fun _ => "")
      false (fun _ _ => HttpOutcome.exn "down")).1.mpr (by decide),
   ⟨_,
    (query_research_council_spec witness_roster4 "topic" "tactical" (fun _ => "")
      false (fun _ _ => HttpOutcome.exn "down")).2.1 (by decide),
    (query_research_council_spec witness_roster4 "topic" "tactical" (fun _ => "")
      false (fun _ _ => HttpOutcome.exn "down")).2.2 (by decide) _
      ((query_research_council_spec witness_roster4 "topic" "tactical" (fun _ => "")
        false (fun _ _ => HttpOutcome.exn "down")).2.1 (by decide))⟩⟩

/-- A string of length zero is the empty string. -/
theorem str_eq_empty_of_length_eq_zero (a : String) (h : a.length = 0) : a = "" := by
  cases a with
  | mk d =>
    have hd : d = [] := List.length_eq_zero.mp h
    subst hd
    rfl

/-- Appending to a nonempty string never yields the empty string. -/
theorem str_append_ne_empty_left (a b : String) (h : a ≠ "") : a ++ b ≠ "" := by
  intro he
  apply h
  have hl := congrArg String.length he
  rw [String.length_append] at hl
  have h0 : ("" : String).length = 0 := rfl
  rw [h0] at hl
  exact str_eq_empty_of_length_eq_zero a (by omega)

/-- The character length of a string is at most that of any extension. -/
theorem str_length_le_append (a b : String) : a.length ≤ (a ++ b).length := by
  rw [String.length_append]
  exact Nat.le_add_right _ _

/-- A Boolean prefix of a string stays a prefix after appending. -/
theorem strStartsWith_append_true (a b pre : String)
    (h : strStartsWith a pre = true) : strStartsWith (a ++ b) pre = true := by
  unfold strStartsWith at h ⊢
  rw [List.isPrefixOf_iff_prefix] at h ⊢
  have hd : (a ++ b).toList = a.toList ++ b.toList := by
    simp [String.toList, String.data_append]
  rw [hd]
  exact h.trans (List.prefix_append _ _)

/-- A string that fails a prefix test keeps failing it after appending,
when the candidate prefix is no longer than the original string. -/
theorem strStartsWith_append_false (a b pre : String)
    (h : strStartsWith a pre = false) (hlen : pre.length ≤ a.length) :
    strStartsWith (a ++ b) pre = false := by
  unfold strStartsWith at h ⊢
  rw [Bool.eq_false_iff, Ne, List.isPrefixOf_iff_prefix] at h ⊢
  intro hp
  have hd : (a ++ b).toList = a.toList ++ b.toList := by
    simp [String.toList, String.data_append]
  rw [hd] at hp
  exact h (List.prefix_of_prefix_length_le hp (List.prefix_append _ _) hlen)

/-- The web-search disclaimer never starts with the warning marker, with
or without appended content. -/
theorem disclaimer_not_warning (m x : String) :
    strStartsWith (web_search_disclaimer m ++ x) "⚠️" = false := by
  unfold web_search_disclaimer
  have h1 : strStartsWith
      "📚 **Note: Web search not available for this model (" "⚠️" = false := by decide
  have hl1 : ("⚠️" : String).length ≤
      ("📚 **Note: Web search not available for this model (" : String).length := by
    decide
  have h2 := strStartsWith_append_false
    "📚 **Note: Web search not available for this model (" m "⚠️" h1 hl1
  have h3 := strStartsWith_append_false
    ("📚 **Note: Web search not available for this model (" ++ m)
    "). Response based on pretraining knowledge only.**\n\n" "⚠️" h2
    (hl1.trans (str_length_le_append _ _))
  exact strStartsWith_append_false _ x "⚠️" h3
    ((hl1.trans (str_length_le_append _ _)).trans (str_length_le_append _ _))

/-- The web-search disclaimer is nonempty, with or without appended
content. -/
theorem disclaimer_ne_empty (m x : String) :
    web_search_disclaimer m ++ x ≠ "" := by
  unfold web_search_disclaimer
  exact str_append_ne_empty_left _ _
    (str_append_ne_empty_left _ _
      (str_append_ne_empty_left _ _ (by decide)))

/-- The tool-call placeholder always starts with the warning marker. -/
theorem tool_call_placeholder_warning (args : String) :
    strStartsWith (tool_call_placeholder args) "⚠️" = true :=
  strStartsWith_append_true _ args "⚠️" (by decide)

/-- The tool-call placeholder is nonempty. -/
theorem tool_call_placeholder_ne_empty (args : String) :
    tool_call_placeholder args ≠ "" :=
  str_append_ne_empty_left _ args (by decide)

/-- Normalized research content when the provider returns empty content
and no tool call: the empty-content placeholder, with the disclaimer
prefix exactly when web search was requested on a non-capable model. -/
theorem research_content_empty_no_tc (msg : ApiMessage) (model : String)
    (ws hw : Bool) (h1 : msg.content.getD "" = "")
    (h2 : msg.tool_calls.getD [] = []) :
    research_content msg model ws hw =
      (if ws && !hw then
        web_search_disclaimer model ++ empty_response_placeholder
      else empty_response_placeholder) := by
  cases htc : msg.tool_calls with
  | none => simp [research_content, h1, htc, empty_response_placeholder]
  | some l =>
    cases l with
    | nil => simp [research_content, h1, htc, empty_response_placeholder]
    | cons t ts => rw [htc] at h2; simp at h2

/-- Normalized research content when the provider returns empty content
and a nonempty tool-call array: the tool-call placeholder built from the
first call's arguments, with the disclaimer prefix exactly when web
search was requested on a non-capable model. -/
theorem research_content_tool_call (msg : ApiMessage) (model : String)
    (ws hw : Bool) (tc : ToolCall) (tcs : List ToolCall)
    (h1 : msg.content.getD "" = "") (h2 : msg.tool_calls = some (tc :: tcs)) :
    research_content msg model ws hw =
      (if ws && !hw then
        web_search_disclaimer model ++ tool_call_placeholder (tool_call_args tc)
      else tool_call_placeholder (tool_call_args tc)) := by
  simp [research_content, h1, h2, tool_call_placeholder_ne_empty]

/-- Normalized research content when the provider returns nonempty
content: the content itself, with the disclaimer prefix exactly when web
search was requested on a non-capable model. -/
theorem research_content_of_nonempty (msg : ApiMessage) (model : String)
    (ws hw : Bool) (h0 : msg.content.getD "" ≠ "") :
    research_content msg model ws hw =
      (if ws && !hw then web_search_disclaimer model ++ msg.content.getD ""
       else msg.content.getD "") := by
  simp [research_content, h0]

/-- Normalized research content is never the empty string. -/
theorem research_content_ne_empty (msg : ApiMessage) (model : String)
    (ws hw : Bool) : research_content msg model ws hw ≠ "" := by
  by_cases h0 : msg.content.getD "" = ""
  · cases htc : msg.tool_calls with
    | none =>
      rw [research_content_empty_no_tc msg model ws hw h0 (by simp [htc])]
      split
      · exact disclaimer_ne_empty _ _
      · decide
    | some l =>
      cases l with
      | nil =>
        rw [research_content_empty_no_tc msg model ws hw h0 (by simp [htc])]
        split
        · exact disclaimer_ne_empty _ _
        · decide
      | cons tc tcs =>
        rw [research_content_tool_call msg model ws hw tc tcs h0 htc]
        split
        · exact disclaimer_ne_empty _ _
        · exact tool_call_placeholder_ne_empty _
  · rw [research_content_of_nonempty msg model ws hw h0]
    split
    · exact disclaimer_ne_empty _ _
    · exact h0

/-- In the non-exceptional branch the response of a research-role query
is the normalized research content of the first choice's message. -/
theorem research_response_eq (roster : Roster) (officer_id topic : String)
    (i : Fin 4) (mem : String) (ws : Bool) (http : Payload → HttpOutcome)
    (data : ApiResponse) (choice : Choice)
    (hh : http (research_payload roster officer_id topic i mem ws) =
      HttpOutcome.ok data)
    (hc : data.choices.head? = some choice) :
    (query_officer_with_research_role roster officer_id topic i mem ws
        http).response =
      research_content choice.message (roster.officers officer_id).model ws
        (model_supports_web_search (roster.officers officer_id).model) := by
  unfold query_officer_with_research_role
  rw [hh]
  simp [hc]

/-- In the non-exceptional branch the success flag of a research-role
query is computed from the normalized content: nonempty and not starting
with the warning marker. -/
theorem research_success_eq (roster : Roster) (officer_id topic : String)
    (i : Fin 4) (mem : String) (ws : Bool) (http : Payload → HttpOutcome)
    (data : ApiResponse) (choice : Choice)
    (hh : http (research_payload roster officer_id topic i mem ws) =
      HttpOutcome.ok data)
    (hc : data.choices.head? = some choice) :
    (query_officer_with_research_role roster officer_id topic i mem ws
        http).success =
      (!(research_content choice.message (roster.officers officer_id).model ws
          (model_supports_web_search (roster.officers officer_id).model) == "") &&
        !(strStartsWith (research_content choice.message
            (roster.officers officer_id).model ws
            (model_supports_web_search (roster.officers officer_id).model))
          "⚠️")) := by
  unfold query_officer_with_research_role
  rw [hh]
  simp [hc]

/-- A non-exceptional body whose first choice carries empty content. -/
def empty_content_data : ApiResponse :=
  { choices := [{ message := { content := some "", tool_calls := none } }] }

/-- C5 counterexample: on a non-exceptional response with empty provider
content, the plain officer query client query_officer returns the raw
empty string as response text (tagged success), synthesizing no
placeholder. -/
theorem query_officer_empty_content_counterexample :
    (query_officer witness_roster "O1" "brief" ""
        (fun _ => HttpOutcome.ok empty_content_data)).response = "" ∧
    (query_officer witness_roster "O1" "brief" ""
        (fun _ => HttpOutcome.ok empty_content_data)).success = true := by
  constructor <;> rfl

/-- C5 (amended): placeholder synthesis lives in the research-role query
client.  There, on every non-exceptional response, the response text is
never the raw empty value; empty provider content maps to the
empty-response placeholder and a tool call maps to the tool-call
placeholder, each optionally prefixed by the web-search disclaimer.  The
plain query_officer returns provider content verbatim. -/
theorem research_placeholder_spec (roster : Roster) (officer_id topic : String)
    (i : Fin 4) (mem : String) (ws : Bool) (http : Payload → HttpOutcome)
    (data : ApiResponse) (choice : Choice)
    (hh : http (research_payload roster officer_id topic i mem ws) =
      HttpOutcome.ok data)
    (hc : data.choices.head? = some choice) :
    (query_officer_with_research_role roster officer_id topic i mem ws
        http).response ≠ "" ∧
    (choice.message.content.getD "" = "" →
      choice.message.tool_calls.getD [] = [] →
      (query_officer_with_research_role roster officer_id topic i mem ws
          http).response =
        (if ws && !model_supports_web_search (roster.officers officer_id).model then
          web_search_disclaimer (roster.officers officer_id).model ++
            empty_response_placeholder
        else empty_response_placeholder)) ∧
    (∀ tc tcs, choice.message.content.getD "" = "" →
      choice.message.tool_calls = some (tc :: tcs) →
      (query_officer_with_research_role roster officer_id topic i mem ws
          http).response =
        (if ws && !model_supports_web_search (roster.officers officer_id).model then
          web_search_disclaimer (roster.officers officer_id).model ++
            tool_call_placeholder (tool_call_args tc)
        else tool_call_placeholder (tool_call_args tc))) := by
  rw [research_response_eq roster officer_id topic i mem ws http data choice hh hc]
  refine ⟨research_content_ne_empty _ _ _ _, fun h1 h2 => ?_, fun tc tcs h1 h2 => ?_⟩
  · exact research_content_empty_no_tc _ _ _ _ h1 h2
  · exact research_content_tool_call _ _ _ _ tc tcs h1 h2

/-- Witness for the amended C5 at a concrete empty-content response. -/
theorem research_placeholder_spec_witness :
    (query_officer_with_research_role witness_roster "O1" "topic" 0 "" false
        (fun _ => HttpOutcome.ok empty_content_data)).response ≠ "" ∧
    (query_officer_with_research_role witness_roster "O1" "topic" 0 "" false
        (fun _ => HttpOutcome.ok empty_content_data)).response =
      empty_response_placeholder :=
  ⟨(research_placeholder_spec witness_roster "O1" "topic" 0 "" false
      (fun _ => HttpOutcome.ok empty_content_data) empty_content_data
      ⟨⟨some "", none⟩⟩ rfl rfl).1,
   (research_placeholder_spec witness_roster "O1" "topic" 0 "" false
      (fun _ => HttpOutcome.ok empty_content_data) empty_content_data
      ⟨⟨some "", none⟩⟩ rfl rfl).2.1 rfl rfl⟩

/-- C10: in the non-exceptional branch, the success flag of a
research-role result is true exactly when the final response text is
nonempty and does not start with the warning marker; an empty-content
placeholder alone is tagged failed, but with the web-search disclaimer
prepended (web search requested on a non-capable model) the same
placeholder content is tagged successful. -/
theorem research_success_flag_spec (roster : Roster) (officer_id topic : String)
    (i : Fin 4) (mem : String) (ws : Bool) (http : Payload → HttpOutcome)
    (data : ApiResponse) (choice : Choice)
    (hh : http (research_payload roster officer_id topic i mem ws) =
      HttpOutcome.ok data)
    (hc : data.choices.head? = some choice) :
    ((query_officer_with_research_role roster officer_id topic i mem ws
        http).success = true ↔
      ((query_officer_with_research_role roster officer_id topic i mem ws
          http).response ≠ "" ∧
        strStartsWith (query_officer_with_research_role roster officer_id topic i
            mem ws http).response "⚠️" = false)) ∧
    (choice.message.content.getD "" = "" →
      choice.message.tool_calls.getD [] = [] →
      (ws && !model_supports_web_search (roster.officers officer_id).model) =
        false →
      (query_officer_with_research_role roster officer_id topic i mem ws
          http).success = false) ∧
    (choice.message.content.getD "" = "" →
      choice.message.tool_calls.getD [] = [] →
      (ws && !model_supports_web_search (roster.officers officer_id).model) =
        true →
      (query_officer_with_research_role roster officer_id topic i mem ws
          http).success = true) := by
  have hr := research_response_eq roster officer_id topic i mem ws http data choice hh hc
  have hs := research_success_eq roster officer_id topic i mem ws http data choice hh hc
  refine ⟨?_, fun h1 h2 h3 => ?_, fun h1 h2 h3 => ?_⟩
  · rw [hs, hr]
    simp [Bool.and_eq_true]
  · rw [hs, research_content_empty_no_tc _ _ _ _ h1 h2, h3]
    simp
    decide
  · rw [hs, research_content_empty_no_tc _ _ _ _ h1 h2, h3]
    simp [disclaimer_not_warning, disclaimer_ne_empty]

/-- Witness for C10: a non-capable model with empty content is tagged
failed without web search and successful when the disclaimer is
prepended. -/
theorem research_success_flag_spec_witness :
    (query_officer_with_research_role witness_roster "O1" "topic" 0 "" false
        (fun _ => HttpOutcome.ok empty_content_data)).success = false ∧
    (query_officer_with_research_role witness_roster "O1" "topic" 0 "" true
        (fun _ => HttpOutcome.ok empty_content_data)).success = true :=
  ⟨(research_success_flag_spec witness_roster "O1" "topic" 0 "" false
      (fun _ => HttpOutcome.ok empty_content_data) empty_content_data
      ⟨⟨some "", none⟩⟩ rfl rfl).2.1 rfl rfl (by decide),
   (research_success_flag_spec witness_roster "O1" "topic" 0 "" true
      (fun _ => HttpOutcome.ok empty_content_data) empty_content_data
      ⟨⟨some "", none⟩⟩ rfl rfl).2.2 rfl rfl (by decide)⟩
